import Mathlib

/-!
Verification of the ColdGen repository (src/chains.py, src/utils.py,
src/portfolio.py, src/main.py) against its natural-language specification.

The language-model calls, the web page fetch, the CSV write and the vector
index are external collaborators; their outcomes enter the embedded functions
as explicit parameters (`Except String _` for calls that can raise, `Bool`
for success flags).  Everything the repository itself computes — blank
checks, the regex-based JSON payload selection, JSON parsing, field
defaulting, the text-cleaning pipeline, link/skill filtering and the
request-handler control flow — is embedded below, translated statement by
statement from the Python source.
-/

namespace ColdGen

/-! ## Python/JSON value model

`JVal` models the values `json.loads` can produce and the dynamically typed
values flowing through the code (job dicts, link metadata, skills).
Floats are kept as their raw source token: no claim depends on float
arithmetic or on Python float formatting, which is not modelled.
-/

inductive JVal where
  | null : JVal
  | bool : Bool → JVal
  | num : Int → JVal
  | float : String → JVal
  | str : String → JVal
  | arr : List JVal → JVal
  | obj : List (String × JVal) → JVal

/-- Assoc-list lookup with Python-dict semantics: the LAST binding of a
duplicated key wins (later assignments overwrite earlier ones). -/
def jGet (fs : List (String × JVal)) (k : String) : Option JVal :=
  match fs with
  | [] => none
  | (k', v) :: rest =>
    match jGet rest k with
    | some r => some r
    | none => if k' = k then some v else none

def JVal.isObj : JVal → Bool
  | .obj _ => true
  | _ => false

def JVal.isStr : JVal → Bool
  | .str _ => true
  | _ => false

def JVal.objFields : JVal → List (String × JVal)
  | .obj fs => fs
  | _ => []

/-- Lookup of a key on a `JVal` known (or not) to be a dict. -/
def jGetV : JVal → String → Option JVal
  | .obj fs, k => jGet fs k
  | _, _ => none

/-- Python truthiness of a value (`bool(v)`).  A float token is truthy when
its mantissa holds a nonzero digit (float underflow is not modelled; no
claim exercises float truthiness). -/
def truthy : JVal → Bool
  | .null => false
  | .bool b => b
  | .num n => n ≠ 0
  | .float raw => raw.data.any fun c => '1' ≤ c && c ≤ '9'
  | .str s => s ≠ ""
  | .arr l => !l.isEmpty
  | .obj fs => !fs.isEmpty

def truthyOpt : Option JVal → Bool
  | some v => truthy v
  | none => false

/-- The whitespace characters of `str.strip()` / `\s` (ASCII; the rare
non-ASCII Unicode whitespace characters are not modelled). -/
def pyIsSpace (c : Char) : Bool :=
  c = ' ' || c = '\t' || c = '\n' || c = '\r' || c = '\x0b' || c = '\x0c'

def pyStripList (cs : List Char) : List Char :=
  ((cs.dropWhile pyIsSpace).reverse.dropWhile pyIsSpace).reverse

/-- Python `str.strip()` with no argument. -/
def pyStrip (s : String) : String :=
  String.mk (pyStripList s.data)

/-- Python `repr` of a string: quoted with a single quote, common escapes.
Approximates CPython (quote-choice and `\xNN` escapes for unprintables are
not reproduced); never exercised by a claim. -/
def pyReprStr (s : String) : String :=
  let q := Char.ofNat 39
  let esc : Char → List Char := fun c =>
    if c = '\\' then ['\\', '\\']
    else if c = q then ['\\', q]
    else if c = '\n' then ['\\', 'n']
    else if c = '\r' then ['\\', 'r']
    else if c = '\t' then ['\\', 't']
    else [c]
  String.mk (q :: (s.data.flatMap esc) ++ [q])

mutual
/-- Python `repr` of a JSON-shaped value (used by `str` on containers). -/
def pyRepr : JVal → String
  | .null => "None"
  | .bool b => if b then "True" else "False"
  | .num n => toString n
  | .float raw => raw
  | .str s => pyReprStr s
  | .arr l => "[" ++ pyReprList l ++ "]"
  | .obj fs => String.mk [Char.ofNat 123] ++ pyReprFields fs ++ String.mk [Char.ofNat 125]

def pyReprList : List JVal → String
  | [] => ""
  | [v] => pyRepr v
  | v :: rest => pyRepr v ++ ", " ++ pyReprList rest

def pyReprFields : List (String × JVal) → String
  | [] => ""
  | [(k, v)] => pyReprStr k ++ ": " ++ pyRepr v
  | (k, v) :: rest => pyReprStr k ++ ": " ++ pyRepr v ++ ", " ++ pyReprFields rest
end

/-- Python `str(v)` as used by the f-strings and `str(...)` casts in
`chains.py`. -/
def pyStr : JVal → String
  | .str s => s
  | .null => "None"
  | .bool b => if b then "True" else "False"
  | .num n => toString n
  | .float raw => raw
  | .arr l => "[" ++ pyReprList l ++ "]"
  | .obj fs => String.mk [Char.ofNat 123] ++ pyReprFields fs ++ String.mk [Char.ofNat 125]

/-! ## JSON parsing (`json.loads`)

A fuel-indexed recursive-descent parser for the JSON accepted by Python's
`json.loads` with default options: strict strings (raw control characters
rejected), double-quoted strings only, standard number grammar, a single
top-level value with only surrounding whitespace.  The nonstandard
`NaN/Infinity` extension and `\uXXXX` surrogate-pair combination are not
modelled; no claim depends on them. -/

def isJsonWs (c : Char) : Bool :=
  c = ' ' || c = '\t' || c = '\n' || c = '\r'

def skipWs (cs : List Char) : List Char :=
  cs.dropWhile isJsonWs

def hexVal (c : Char) : Option Nat :=
  if '0' ≤ c ∧ c ≤ '9' then some (c.toNat - '0'.toNat)
  else if 'a' ≤ c ∧ c ≤ 'f' then some (c.toNat - 'a'.toNat + 10)
  else if 'A' ≤ c ∧ c ≤ 'F' then some (c.toNat - 'A'.toNat + 10)
  else none

/-- Parse a JSON string body (after the opening quote), strict mode. -/
def parseJStr : Nat → List Char → Option (List Char × List Char)
  | 0, _ => none
  | _, [] => none
  | fuel + 1, c :: rest =>
    if c = '"' then some ([], rest)
    else if c = '\\' then
      match rest with
      | [] => none
      | e :: rest2 =>
        let cont : Char → List Char → Option (List Char × List Char) :=
          fun decoded rem =>
            (parseJStr fuel rem).map fun p => (decoded :: p.1, p.2)
        if e = '"' then cont '"' rest2
        else if e = '\\' then cont '\\' rest2
        else if e = '/' then cont '/' rest2
        else if e = 'b' then cont '\x08' rest2
        else if e = 'f' then cont '\x0c' rest2
        else if e = 'n' then cont '\n' rest2
        else if e = 'r' then cont '\r' rest2
        else if e = 't' then cont '\t' rest2
        else if e = 'u' then
          match rest2 with
          | h1 :: h2 :: h3 :: h4 :: rest3 =>
            match hexVal h1, hexVal h2, hexVal h3, hexVal h4 with
            | some a, some b, some c', some d =>
              cont (Char.ofNat (((a * 16 + b) * 16 + c') * 16 + d)) rest3
            | _, _, _, _ => none
          | _ => none
        else none
    else if c.toNat < 0x20 then none
    else (parseJStr fuel rest).map fun p => (c :: p.1, p.2)

/-- JSON number grammar `-?(0|[1-9][0-9]*)(\.[0-9]+)?([eE][+-]?[0-9]+)?`.
Integers become `JVal.num`; numbers with a fraction or exponent are kept as
their raw token in `JVal.float`. -/
def parseJNum (cs : List Char) : Option (JVal × List Char) :=
  let (sign, cs1) :=
    match cs with
    | '-' :: r => ((['-'] : List Char), r)
    | _ => ([], cs)
  let intPart := cs1.takeWhile Char.isDigit
  let rest1 := cs1.dropWhile Char.isDigit
  if intPart.isEmpty then none
  else if intPart.length > 1 ∧ intPart.head? = some '0' then none
  else
    let (fracPart, rest2) :=
      match rest1 with
      | '.' :: r =>
        let ds := r.takeWhile Char.isDigit
        if ds.isEmpty then (none, rest1)
        else (some ('.' :: ds), r.dropWhile Char.isDigit)
      | _ => (none, rest1)
    match fracPart with
    | none =>
      -- still may have an exponent
      match rest1 with
      | e :: r =>
        if e = 'e' ∨ e = 'E' then
          let (sgn, r2) :=
            match r with
            | '+' :: rr => ((['+'] : List Char), rr)
            | '-' :: rr => ((['-'] : List Char), rr)
            | _ => ([], r)
          let ds := r2.takeWhile Char.isDigit
          if ds.isEmpty then none
          else
            some (JVal.float (String.mk (sign ++ intPart ++ [e] ++ sgn ++ ds)),
                  r2.dropWhile Char.isDigit)
        else
          some (mkIntVal sign intPart, rest1)
      | [] => some (mkIntVal sign intPart, rest1)
    | some fp =>
      match rest2 with
      | e :: r =>
        if e = 'e' ∨ e = 'E' then
          let (sgn, r2) :=
            match r with
            | '+' :: rr => ((['+'] : List Char), rr)
            | '-' :: rr => ((['-'] : List Char), rr)
            | _ => ([], r)
          let ds := r2.takeWhile Char.isDigit
          if ds.isEmpty then none
          else
            some (JVal.float (String.mk (sign ++ intPart ++ fp ++ [e] ++ sgn ++ ds)),
                  r2.dropWhile Char.isDigit)
        else some (JVal.float (String.mk (sign ++ intPart ++ fp)), rest2)
      | [] => some (JVal.float (String.mk (sign ++ intPart ++ fp)), rest2)
where
  digitsToNat (ds : List Char) : Nat :=
    ds.foldl (fun acc c => acc * 10 + (c.toNat - '0'.toNat)) 0
  mkIntVal (sign intPart : List Char) : JVal :=
    let n : Int := Int.ofNat (digitsToNat intPart)
    JVal.num (if sign.isEmpty then n else -n)

mutual
def parseJVal : Nat → List Char → Option (JVal × List Char)
  | 0, _ => none
  | fuel + 1, cs =>
    match skipWs cs with
    | 't' :: 'r' :: 'u' :: 'e' :: rest => some (JVal.bool true, rest)
    | 'f' :: 'a' :: 'l' :: 's' :: 'e' :: rest => some (JVal.bool false, rest)
    | 'n' :: 'u' :: 'l' :: 'l' :: rest => some (JVal.null, rest)
    | '"' :: rest =>
      (parseJStr (rest.length + 1) rest).map fun p => (JVal.str (String.mk p.1), p.2)
    | '[' :: rest =>
      (match skipWs rest with
       | ']' :: r2 => some (JVal.arr [], r2)
       | cs2 => (parseJElems fuel cs2).map fun p => (JVal.arr p.1, p.2))
    | c :: rest =>
      if c = Char.ofNat 123 then
        (match skipWs rest with
         | cs2 =>
           match cs2 with
           | c2 :: r2 =>
             if c2 = Char.ofNat 125 then some (JVal.obj [], r2)
             else (parseJMembers fuel cs2).map fun p => (JVal.obj p.1, p.2)
           | [] => none)
      else parseJNum (c :: rest)
    | [] => none

def parseJElems : Nat → List Char → Option (List JVal × List Char)
  | 0, _ => none
  | fuel + 1, cs =>
    (parseJVal fuel cs).bind fun p =>
      match skipWs p.2 with
      | ',' :: r2 => (parseJElems fuel r2).map fun q => (p.1 :: q.1, q.2)
      | ']' :: r2 => some ([p.1], r2)
      | _ => none

def parseJMembers : Nat → List Char → Option (List (String × JVal) × List Char)
  | 0, _ => none
  | fuel + 1, cs =>
    match skipWs cs with
    | '"' :: rest =>
      (parseJStr (rest.length + 1) rest).bind fun kp =>
        match skipWs kp.2 with
        | ':' :: r2 =>
          (parseJVal fuel r2).bind fun vp =>
            match skipWs vp.2 with
            | ',' :: r3 =>
              (parseJMembers fuel r3).map fun q =>
                ((String.mk kp.1, vp.1) :: q.1, q.2)
            | c :: r3 =>
              if c = Char.ofNat 125 then some ([(String.mk kp.1, vp.1)], r3)
              else none
            | [] => none
        | _ => none
    | _ => none
end

/-- `json.loads`: one JSON value, only whitespace around it. -/
def jsonLoads (s : String) : Option JVal :=
  match parseJVal (s.length * 2 + 2) s.data with
  | some (v, rest) => if skipWs rest = [] then some v else none
  | none => none

/-! ## `src/utils.py` — `clean_text`

Each `re.sub` of the pipeline is embedded as a left-to-right scanner with
the exact matching semantics of the regex it translates.  The scanners use
a fuel argument (`input length + 1` always suffices: every step consumes at
least one character); with exhausted fuel the remaining input is returned
unchanged, which never happens on the wrapped calls. -/

/-- `re.sub(r'<[^>]*?>', '', text)` helper: drop the input through the first
`>` (the lazy `[^>]*?` cannot cross a `>`, so a tag match always ends at the
first following `>`). -/
def dropThroughGt : List Char → Option (List Char)
  | [] => none
  | c :: rest => if c = '>' then some rest else dropThroughGt rest

/-- `re.sub(r'<[^>]*?>', '', text)`: remove HTML tags.  A `<` with no later
`>` can never start a match, and then no later `<` can either, so the
remainder is kept verbatim. -/
def removeTagsF : Nat → List Char → List Char
  | 0, cs => cs
  | fuel + 1, cs =>
    match cs with
    | [] => []
    | c :: rest =>
      if c = '<' then
        match dropThroughGt rest with
        | some after => removeTagsF fuel after
        | none => c :: rest
      else c :: removeTagsF fuel rest

/-- Character class of the URL regex body:
`[a-zA-Z]|[0-9]|[$-_@.&+]|[!*\\(\\),]|%[0-9a-fA-F][0-9a-fA-F]`.
The class `[$-_@.&+]` is the ASCII range `$`..`_` (which already contains
`@ . & + \ ( ) , *` and `%`, subsuming the `%hh` alternative); `!` is the
one extra character. -/
def urlChar (c : Char) : Bool :=
  c.isAlpha || c.isDigit || ('$' ≤ c && c ≤ '_') || c = '!'

/-- The literal prefix `http[s]?://` of the URL regex. -/
def stripUrlScheme : List Char → Option (List Char)
  | 'h' :: 't' :: 't' :: 'p' :: 's' :: ':' :: '/' :: '/' :: r => some r
  | 'h' :: 't' :: 't' :: 'p' :: ':' :: '/' :: '/' :: r => some r
  | _ => none

/-- `re.sub(r'http[s]?://(...)+', '', text)`: remove URLs (scheme followed
by one or more `urlChar`s, greedy). -/
def removeUrlsF : Nat → List Char → List Char
  | 0, cs => cs
  | fuel + 1, cs =>
    match cs with
    | [] => []
    | c :: rest =>
      match stripUrlScheme (c :: rest) with
      | some r =>
        match r.takeWhile urlChar with
        | [] => c :: removeUrlsF fuel rest
        | _ :: _ => removeUrlsF fuel (r.dropWhile urlChar)
      | none => c :: removeUrlsF fuel rest

/-- `\w` of Python `re` (ASCII part). -/
def isWordChar (c : Char) : Bool :=
  c.isAlpha || c.isDigit || c = '_'

def isWordCharOpt : Option Char → Bool
  | some c => isWordChar c
  | none => false

/-- `[A-Za-z0-9._%+-]` — the local part of the email regex. -/
def emailLocalChar (c : Char) : Bool :=
  c.isAlpha || c.isDigit || c = '.' || c = '_' || c = '%' || c = '+' || c = '-'

/-- `[A-Za-z0-9.-]` — the domain part of the email regex. -/
def emailDomChar (c : Char) : Bool :=
  c.isAlpha || c.isDigit || c = '.' || c = '-'

/-- `[A-Z|a-z]` — the TLD class of the email regex (the `|` is a literal
member of the class). -/
def emailTldChar (c : Char) : Bool :=
  c.isAlpha || c = '|'

/-- Backtracking of `[A-Z|a-z]{2,}\b` at the start of `after`: try the TLD
length `t` from the given bound (the maximal TLD-char run) down to 2,
accepting the first `t` with a word boundary after position `t`. -/
def tryTldLen (after : List Char) : Nat → Option Nat
  | 0 => none
  | 1 => none
  | Nat.succ (Nat.succ k) =>
    let t := k + 2
    if (isWordCharOpt (after.get? (t - 1))) != (isWordCharOpt (after.get? t)) then
      some t
    else tryTldLen after (k + 1)

/-- Backtracking of `[A-Za-z0-9.-]+\.[A-Z|a-z]{2,}\b` at the start of `cs`:
try the domain length `n` from the maximal domain-char run down to 1; the
character after it must be `.`, then the TLD part must match.  Returns the
total matched length. -/
def tryDomLen (cs : List Char) : Nat → Option Nat
  | 0 => none
  | Nat.succ k =>
    let n := k + 1
    match cs.get? n with
    | some c =>
      if c = '.' then
        let after := cs.drop (n + 1)
        match tryTldLen after ((after.takeWhile emailTldChar).length) with
        | some t => some (n + 1 + t)
        | none => tryDomLen cs k
      else tryDomLen cs k
    | none => tryDomLen cs k

/-- Try to match the email regex
`\b[A-Za-z0-9._%+-]+@[A-Za-z0-9.-]+\.[A-Z|a-z]{2,}\b` at the head of `cs`
(`prev` is the character just before `cs` in the original text, for the
leading word boundary).  The local part needs no backtracking: `@` is not a
local character, so `+` must stop exactly at the `@`. -/
def matchEmailAt (prev : Option Char) (cs : List Char) : Option Nat :=
  match cs with
  | [] => none
  | c :: _ =>
    if (isWordCharOpt prev) != (isWordChar c) then
      let lrun := (cs.takeWhile emailLocalChar).length
      if lrun = 0 then none
      else
        match cs.get? lrun with
        | some a =>
          if a = '@' then
            let domCs := cs.drop (lrun + 1)
            match tryDomLen domCs ((domCs.takeWhile emailDomChar).length) with
            | some dn => some (lrun + 1 + dn)
            | none => none
          else none
        | none => none
    else none

/-- `re.sub(email*regex, '', text)`: scan left to right, removing each
leftmost match and continuing after it (the boundary context is the
original text). -/
def removeEmailsF : Nat → Option Char → List Char → List Char
  | 0, _, cs => cs
  | fuel + 1, prev, cs =>
    match cs with
    | [] => []
    | c :: rest =>
      match matchEmailAt prev (c :: rest) with
      | some n => removeEmailsF fuel ((c :: rest).get? (n - 1)) ((c :: rest).drop n)
      | none => c :: removeEmailsF fuel (some c) rest

/-- Case-insensitive literal match: on success returns the remainder. -/
def matchCI : List Char → List Char → Option (List Char)
  | [], cs => some cs
  | _ :: _, [] => none
  | p :: ps, c :: cs => if p.toLower = c.toLower then matchCI ps cs else none

/-- Find the first occurrence of the (case-insensitive) closing literal and
return the remainder after it — the lazy `.*?` with `re.DOTALL`. -/
def findCloseF : Nat → List Char → List Char → Option (List Char)
  | 0, _, _ => none
  | fuel + 1, pat, cs =>
    match matchCI pat cs with
    | some rest => some rest
    | none =>
      match cs with
      | [] => none
      | _ :: rest => findCloseF fuel pat rest

/-- Match `<script[^>]*>` (resp. `<style[^>]*>`) at the head: the literal
open prefix, then greedy `[^>]*` up to the first `>`. -/
def matchOpenTag (openPat cs : List Char) : Option (List Char) :=
  (matchCI openPat cs).bind fun r =>
    match r.dropWhile (fun c => c ≠ '>') with
    | '>' :: rest => some rest
    | _ => none

/-- `re.sub(r'<script[^>]*>.*?</script>', '', text, flags=DOTALL|IGNORECASE)`
(and the `style` variant): remove each block from its opening tag through
the first closing literal after it. -/
def removeBlocksF : Nat → List Char → List Char → List Char → List Char
  | 0, _, _, cs => cs
  | fuel + 1, openPat, closePat, cs =>
    match cs with
    | [] => []
    | c :: rest =>
      match matchOpenTag openPat (c :: rest) with
      | some afterOpen =>
        match findCloseF (afterOpen.length + 1) closePat afterOpen with
        | some afterClose => removeBlocksF fuel openPat closePat afterClose
        | none => c :: removeBlocksF fuel openPat closePat rest
      | none => c :: removeBlocksF fuel openPat closePat rest

/-- The allow-list class `[^a-zA-Z0-9\s.#+\-(),:;]` of the character filter:
characters kept by `clean_text`; everything else becomes a space. -/
def allowChar (c : Char) : Bool :=
  c.isAlpha || c.isDigit || pyIsSpace c || c = '.' || c = '#' || c = '+' ||
    c = '-' || c = '(' || c = ')' || c = ',' || c = ':' || c = ';'

/-- `re.sub(r'[^a-zA-Z0-9\s.#+\-(),:;]', ' ', text)`. -/
def applyAllowlist (cs : List Char) : List Char :=
  cs.map fun c => if allowChar c then c else ' '

/-- `re.sub(r'\s+', ' ', text)`: collapse whitespace runs to single spaces. -/
def collapseWsF : Nat → List Char → List Char
  | 0, cs => cs
  | fuel + 1, cs =>
    match cs with
    | [] => []
    | c :: rest =>
      if pyIsSpace c then ' ' :: collapseWsF fuel (rest.dropWhile pyIsSpace)
      else c :: collapseWsF fuel rest

/-- `utils.clean_text`.  The `not isinstance(text, str)` guard is outside
the embedding (the Lean argument is a string); `not text` is the empty
check. -/
def clean_text (text : String) : String :=
  if text = "" then ""
  else
    let cs := text.data
    let cs := removeTagsF (cs.length + 1) cs
    let cs := removeUrlsF (cs.length + 1) cs
    let cs := removeEmailsF (cs.length + 1) none cs
    let cs := removeBlocksF (cs.length + 1) "<script".data "</script>".data cs
    let cs := removeBlocksF (cs.length + 1) "<style".data "</style>".data cs
    let cs := applyAllowlist cs
    let cs := collapseWsF (cs.length + 1) cs
    let cs := pyStripList cs
    String.mk cs

/-! ## `src/chains.py` — `Chain.extract_jobs`

The language-model call `chain_extract.invoke(...)` is external: its
response text enters as the `response` argument (a raised network error
would propagate from line 55, before the `try`, and is outside the claims
about parsing).  Everything from line 57 on is embedded. -/

/-- A validated job dict: `extract_jobs` always builds all four keys.
`skills` keeps the raw list value from the response (`job.get('skills', [])
if isinstance(job.get('skills'), list) else []` performs no per-element
conversion). -/
structure Job where
  role : String
  experience : String
  skills : List JVal
  description : String

/-- The longest prefix of `cs` that ends with `closeC` (the greedy `.*`
with `re.DOTALL` runs to the LAST closing character). -/
def upToLast (closeC : Char) : List Char → Option (List Char)
  | [] => none
  | c :: rest =>
    match upToLast closeC rest with
    | some r => some (c :: r)
    | none => if c = closeC then some [c] else none

/-- `re.search(r'\[.*\]', content, re.DOTALL)` (resp. the brace version):
the match, if any, runs from the first `openC` through the last `closeC`
after it.  (A later `openC` cannot start a match when the first one has no
closer after it.) -/
def spanFromTo (openC closeC : Char) (cs : List Char) : Option (List Char) :=
  match cs.dropWhile (fun c => c ≠ openC) with
  | [] => none
  | o :: afterOpen =>
    match upToLast closeC afterOpen with
    | some body => some (o :: body)
    | none => none

/-- Lines 62–71: pick the JSON payload out of the response — first `[...]`
span; else first `{...}` span wrapped in brackets; else the whole content. -/
def selectPayload (content : String) : String :=
  match spanFromTo '[' ']' content.data with
  | some m => String.mk m
  | none =>
    match spanFromTo (Char.ofNat 123) (Char.ofNat 125) content.data with
    | some m => String.mk ('[' :: m ++ [']'])
    | none => content

/-- Lines 82–87 / 92–97: build a validated job from a parsed dict, with the
field-level defaults (`str(...)` around `role`/`experience`/`description`,
the raw list for `skills`). -/
def validateFields (fs : List (String × JVal)) : Job :=
  { role :=
      match jGet fs "role" with
      | some v => pyStr v
      | none => "Unknown Role"
    experience :=
      match jGet fs "experience" with
      | some v => pyStr v
      | none => "Not specified"
    skills :=
      match jGet fs "skills" with
      | some (JVal.arr l) => l
      | _ => []
    description :=
      match jGet fs "description" with
      | some v => pyStr v
      | none => "No description available" }

/-- Line 79–80: only dict elements of the parsed list survive. -/
def validateItem : JVal → Option Job
  | .obj fs => some (validateFields fs)
  | _ => none

/-- `Chain._create_fallback_job` (lines 107–114). -/
def create_fallback_job (text : String) : Job :=
  { role := "Position Available"
    experience := "Not specified"
    skills := [JVal.str "General skills required"]
    description := if text.length > 500 then text.take 500 ++ "..." else text }

/-- Lines 74–101: normalize the outcome of `json.loads` — a list is
validated element-wise falling back when nothing survives, a dict becomes
one validated job, anything else (and, via `none`, a parse failure caught
at line 103) becomes the fallback job. -/
def validateParsed (cleaned_text : String) : Option JVal → List Job
  | some (JVal.arr items) =>
    if (items.filterMap validateItem).isEmpty then
      [create_fallback_job cleaned_text]
    else items.filterMap validateItem
  | some (JVal.obj fs) => [validateFields fs]
  | some _ => [create_fallback_job cleaned_text]
  | none => [create_fallback_job cleaned_text]

/-- Lines 57–105: the parsing/validation body of `extract_jobs`.  The
`except` at line 103 catches every exception, so this part is total. -/
def extractCore (cleaned_text response : String) : List Job :=
  validateParsed cleaned_text (jsonLoads (selectPayload (pyStrip response)))

/-- `Chain.extract_jobs` (minus the external model call): raises
`ValueError` exactly on blank input (line 32), otherwise returns the result
of parsing/validating the model response. -/
def extract_jobs (cleaned_text response : String) :
    Except String (List Job) :=
  if pyStrip cleaned_text = "" then
    Except.error "Empty or invalid text provided for job extraction."
  else
    Except.ok (extractCore cleaned_text response)

/-! ## `src/chains.py` — `Chain.write_mail`

The model call at line 200 is external; its outcome is the `llm` argument
(`Except.error e` when `invoke` raises with message `e`, `Except.ok c` when
it returns content `c`; `None` content is modelled by the empty string,
which is equally falsy).  A `Except.error` RESULT of `write_mail` is a
Python exception propagating to the caller; `Except.ok` is a returned
string. -/

/-- One iteration of the loop at lines 150–154 for a dict link: the looked
up `description` (if any) is appended stripped when truthy and non-blank;
`desc.strip()` on a truthy non-string raises `AttributeError` (the error
of the earliest offending link wins, as in the loop). -/
def descStep (d : Option JVal) (acc : Except String (List String)) :
    Except String (List String) :=
  match d with
  | some (JVal.str s) =>
    if truthy (JVal.str s) then
      if pyStrip s ≠ "" then acc.map fun ds => pyStrip s :: ds
      else acc
    else acc
  | some d =>
    if truthy d then
      .error "AttributeError: strip is not an attribute of the description value"
    else acc
  | none => acc

/-- Lines 149–154: collect `desc.strip()` for dict links with a truthy
`description`. -/
def collectDescs : List JVal → Except String (List String)
  | [] => .ok []
  | l :: rest =>
    match l with
    | .obj fs => descStep (jGet fs "description") (collectDescs rest)
    | _ => collectDescs rest

/-- `', '.join(...)` over the raw skills list: raises `TypeError` when an
element is not a string. -/
def joinStrs : List JVal → Except String (List String)
  | [] => .ok []
  | .str s :: rest => (joinStrs rest).map fun ss => s :: ss
  | _ :: _ => .error "TypeError: sequence item is not a str instance"

/-- A single `f"Label: {value}"` part, present only when the looked-up
value is truthy (lines 161–164 and 167–168). -/
def labeledPart (label : String) : Option JVal → List String
  | some v => if truthy v then [label ++ pyStr v] else []
  | none => []

/-- Lines 165–166: the skills part, present when `job.get('skills')` is a
truthy list; `', '.join` raises on non-string elements. -/
def skillsPart : Option JVal → Except String (List String)
  | some (JVal.arr l) =>
    if truthy (JVal.arr l) then
      (joinStrs l).map fun ss => ["Skills: " ++ String.intercalate ", " ss]
    else .ok []
  | _ => .ok []

/-- Lines 160–170: the `job_desc_parts` construction (role, experience,
skills, description, in that order, each only when truthy). -/
def jobDescParts (fs : List (String × JVal)) : Except String (List String) :=
  (skillsPart (jGet fs "skills")).map fun sp =>
    labeledPart "Role: " (jGet fs "role") ++
      labeledPart "Experience: " (jGet fs "experience") ++ sp ++
      labeledPart "Description: " (jGet fs "description")

/-! ### The eager prompt-template parse of line 172

`PromptTemplate.from_template` is called OUTSIDE the `try` of line 199 and
eagerly extracts the template variables with `string.Formatter().parse`,
which raises `ValueError` when the template is malformed.  The template is
an f-string interpolating the (normalized) `username` and `tone`, so a
username carrying an unbalanced brace makes `write_mail` raise.  The
scanner below reproduces the accept/reject behaviour of CPython's
`MarkupIterator_next`/`parse_field` (Objects/stringlib/unicode_format.h):
literal text with `{{`/`}}` escapes and a lone `}` rejected; a field name
scanned up to `}`, `:` or `!` (a `{` in it rejected, `[...]` skipped); after
`!` one conversion character read blindly, then `}` or `:` required; after
`:` a format spec scanned with brace counting; any unterminated construct
rejected. -/

mutual
def fstringLiteral : Nat → List Char → Bool
  | 0, _ => false
  | _ + 1, [] => true
  | fuel + 1, c :: rest =>
    if c = Char.ofNat 125 then
      match rest with
      | c2 :: rest2 =>
        if c2 = Char.ofNat 125 then fstringLiteral fuel rest2 else false
      | [] => false
    else if c = Char.ofNat 123 then
      match rest with
      | [] => false
      | c2 :: rest2 =>
        if c2 = Char.ofNat 123 then fstringLiteral fuel rest2
        else fstringField fuel (c2 :: rest2)
    else fstringLiteral fuel rest

def fstringField : Nat → List Char → Bool
  | 0, _ => false
  | _ + 1, [] => false
  | fuel + 1, c :: rest =>
    if c = Char.ofNat 123 then false
    else if c = '[' then fstringFieldBracket fuel rest
    else if c = Char.ofNat 125 then fstringLiteral fuel rest
    else if c = ':' then fstringSpec fuel 1 rest
    else if c = '!' then
      match rest with
      | [] => false
      | _conv :: rest2 =>
        match rest2 with
        | [] => false
        | c3 :: rest3 =>
          if c3 = Char.ofNat 125 then fstringLiteral fuel rest3
          else if c3 = ':' then fstringSpec fuel 1 rest3
          else false
    else fstringField fuel rest

def fstringFieldBracket : Nat → List Char → Bool
  | 0, _ => false
  | _ + 1, [] => false
  | fuel + 1, c :: rest =>
    if c = ']' then fstringField fuel rest
    else fstringFieldBracket fuel rest

def fstringSpec : Nat → Nat → List Char → Bool
  | 0, _, _ => false
  | _ + 1, _, [] => false
  | fuel + 1, count, c :: rest =>
    if c = Char.ofNat 123 then fstringSpec fuel (count + 1) rest
    else if c = Char.ofNat 125 then
      if count = 1 then fstringLiteral fuel rest
      else fstringSpec fuel (count - 1) rest
    else fstringSpec fuel count rest
end

/-- `string.Formatter().parse` succeeds on the template (every scanner step
consumes at least one character, so `length + 1` fuel never runs out). -/
def fstringParseOk (s : String) : Bool :=
  fstringLiteral (s.length + 1) s.data

/-- The template string of lines 173–194 as the f-string leaves it: the
doubled braces around `job_description`/`link_list` become single literal
braces and the normalized `username`/`tone` are interpolated verbatim. -/
def prompt_email_template (username tone : String) : String :=
  "\n            ### JOB DESCRIPTION:\n            \x7bjob_description\x7d\n\n            ### INSTRUCTION:\n            You are "
    ++ username
    ++ ", an AI enthusiast and passionate about building innovative AI applications.\n            Write a cold email introducing yourself and how your skills align with the company\x27s needs. \n            \n            Guidelines:\n            - Use a "
    ++ tone
    ++ " tone\n            - Keep it concise and professional\n            - Focus on relevant experience and skills\n            - Do NOT mention programming languages or tools you don\x27t actually know\n            - Be genuine and authentic\n            \n            Use only relevant projects from the following list (if applicable):\n            \x7blink_list\x7d\n\n            Do not provide a preamble or explanations, just the email content.\n\n            ### EMAIL (NO PREAMBLE):\n            "

/-- Lines 140–141: `username` defaulted to "User" when blank, otherwise
kept verbatim (not stripped). -/
def write_mail_username (username : String) : String :=
  if pyStrip username = "" then "User" else username

/-- Lines 143–144: `tone` defaulted to "formal" unless in the fixed set. -/
def write_mail_tone (tone : String) : String :=
  if tone = "formal" || tone = "casual" || tone = "professional" ||
      tone = "friendly" then tone
  else "formal"

/-- `Chain.write_mail` (lines 116–209). -/
def write_mail (job : JVal) (links : List JVal) (username tone : String)
    (llm : Except String String) : Except String String :=
  if !truthy job || !job.isObj then
    .error "Invalid job data provided"
  else
    let linkStrE : Except String String :=
      if links.isEmpty then
        .ok "No specific projects matched, but I have general experience in AI-based applications."
      else
        (collectDescs links).map fun descriptions =>
          if descriptions.isEmpty then
            "No specific projects matched, but I have general experience in AI-based applications."
          else String.intercalate "\n" descriptions
    match linkStrE with
    | .error e => .error e
    | .ok _link_str =>
      match jobDescParts job.objFields with
      | .error e => .error e
      | .ok parts =>
        let _job_description := String.intercalate "\n" parts
        -- line 172: `PromptTemplate.from_template` eagerly parses the
        -- username/tone-interpolated template, OUTSIDE the try of line
        -- 199; a malformed template raises ValueError to the caller
        if !fstringParseOk (prompt_email_template
            (write_mail_username username) (write_mail_tone tone)) then
          .error "ValueError: prompt template failed f-string parsing"
        else
          -- lines 199–209: the model call, its empty-content fallback and
          -- the catch-all that converts an exception into an error string
          match llm with
          | .ok content =>
            if content ≠ "" then .ok (pyStrip content)
            else .ok "Email generation failed. Please try again."
          | .error e => .ok ("Error generating email: " ++ e)

/-! ## `src/portfolio.py` — `Portfolio.query_links`, `add_project`,
`get_all_projects`

The ChromaDB collection is external.  `hasCollection` models
`self.collection is not None`; `queryRes` is the outcome of
`self.collection.query(...)` — `Except.error` when it raises, otherwise the
results dict.  Whether the collection was queried at all is an observable
the claims mention, so the embedded `query_links` returns it as a second
component (`true` iff `collection.query` ran). -/

/-- Line 127: `[skill.strip() for skill in skills if skill and skill.strip()]`.
`skill.strip()` on a truthy non-string raises `AttributeError` (caught by
the enclosing `try` of `query_links`). -/
def stripSkills : List JVal → Except String (List String)
  | [] => .ok []
  | s :: rest =>
    if truthy s then
      match s with
      | .str str_ =>
        if pyStrip str_ ≠ "" then
          (stripSkills rest).map fun ss => pyStrip str_ :: ss
        else stripSkills rest
      | _ => .error "AttributeError: strip is not an attribute of the skill value"
    else stripSkills rest

/-- Line 152: a metadata entry survives when it is a dict with a truthy
`description`. -/
def metaValid (m : JVal) : Bool :=
  m.isObj && truthyOpt (jGetV m "description")

/-- Line 143: `results.get('metadatas', [])`. -/
def getMetadatas (results : List (String × JVal)) : JVal :=
  match jGet results "metadatas" with
  | some m => m
  | none => JVal.arr []

/-- Lines 146–147: when the metadata list is nested (the usual ChromaDB
shape), take its first inner list. -/
def flattenMetas (ms : List JVal) : List JVal :=
  match ms with
  | (JVal.arr inner) :: _ => inner
  | _ => ms

/-- `Portfolio.query_links` (lines 115–165).  Returns the filtered metadata
list and whether the collection was queried.  The adaptive
`n_results=min(5, max(2, count))` only shapes the external query and is
subsumed in `queryRes`. -/
def query_links (skills : List JVal) (hasCollection : Bool)
    (queryRes : Except String (List (String × JVal))) : List JVal × Bool :=
  if skills.isEmpty then ([], false)
  else if !hasCollection then ([], false)
  else
    match stripSkills skills with
    | .error _ => ([], false)       -- caught at line 163, before any query
    | .ok valid_skills =>
      if valid_skills.isEmpty then ([], false)
      else
        match queryRes with
        | .error _ => ([], true)    -- caught at line 159
        | .ok results =>
          match getMetadatas results with
          | JVal.arr ms =>
            if ms.isEmpty then ([], true)
            else ((flattenMetas ms).filter metaValid, true)
          | _ => ([], true)

/-- A row of the CSV-backed dataframe (`Techstack`, `Description`). -/
structure Project where
  techstack : String
  description : String
deriving Repr, DecidableEq

/-- `Portfolio.get_all_projects` (lines 167–184): dump the dataframe rows
(the rows are already strings after `_initialize`, so `str(...)` is the
identity). -/
def get_all_projects (data : List (String × String)) : List Project :=
  if data.isEmpty then []
  else data.map fun r => { techstack := r.1, description := r.2 }

/-- `Portfolio.add_project` (lines 186–224).  `csvOk` is the outcome of
`self.data.to_csv(...)`; `hasCollection`/`vecOk` the optional vector-store
insertion, whose failure is swallowed (lines 216–218).  Returns the Python
return value together with the dataframe contents after the call. -/
def add_project (data : List (String × String)) (techstack description : String)
    (csvOk : Bool) (hasCollection : Bool) (vecOk : Bool) :
    Bool × List (String × String) :=
  if techstack = "" || description = "" then (false, data)
  else
    let newData := data ++ [(techstack, description)]
    if !csvOk then (false, newData)
    else
      -- vector-store insertion: attempted iff `hasCollection`; a failure
      -- (`vecOk = false`) only prints and continues
      let _ := hasCollection && vecOk
      (true, newData)

/-! ## `src/main.py` — the `generate` branch of `index`

The web framework, the page loader and both model calls are external; their
outcomes are parameters.  `fetched` is `loader.load()` plus the
`raw_data[0].page_content` access (an `Except.error` covers both a raising
loader and the `not raw_data` ValueError of line 65).  `llmExtract` is the
extraction model call of `chains.py` line 55 (outside extract_jobs own
`try`); `llmMail` the mail model call.  The rendered `jobs_found` counter
does not affect the cache and is not tracked. -/

/-- The process-wide single-slot cache `cached_data` (lines 22–28). -/
structure Cache where
  last_job : Option Job
  last_links : Option (List JVal)
  last_username : Option String
  last_tone : Option String
  last_url : Option String

/-- What the handler renders. -/
inductive RenderResult where
  | err : String → RenderResult
  | success : String → RenderResult

def Job.toJVal (j : Job) : JVal :=
  JVal.obj [("role", JVal.str j.role), ("experience", JVal.str j.experience),
            ("skills", JVal.arr j.skills), ("description", JVal.str j.description)]

/-- The body of the `try` block of the `generate` action (lines 58–120):
fetch, clean, size check, extraction, portfolio query and composition.
`Except.error` is an exception reaching the handler at line 122;
`Except.ok` carries the job, the matched links and the composed email.
(`portfolio.load_portfolio()` only logs a warning; one of the `Bool`
parameters of `generate` stands for its result.) -/
def generateAttempt (username tone : String) (fetched : Except String String)
    (portfolioReady : Bool) (hasCollection : Bool)
    (queryRes : Except String (List (String × JVal)))
    (llmExtract : Except String String) (llmMail : Except String String) :
    Except String (Job × List JVal × String) :=
  match fetched with
  | .error e => .error e
  | .ok raw =>
    let cleaned_data := clean_text raw
    if cleaned_data = "" || (pyStrip cleaned_data).length < 50 then
      .error "Insufficient content extracted from the webpage. Please check if the URL contains job postings."
    else
      match llmExtract with
      | .error e => .error e
      | .ok response =>
        match extract_jobs cleaned_data response with
        | .error e => .error e
        | .ok jobs =>
          match jobs with
          | [] => .error "No job postings could be extracted from the webpage. Please verify the URL contains job listings."
          | job :: _ =>
            let skills := job.skills
            let links :=
              if portfolioReady && !skills.isEmpty then
                (query_links skills hasCollection queryRes).1
              else []
            match write_mail job.toJVal links username tone llmMail with
            | .error e => .error e
            | .ok email =>
              if email = "" || pyStrip email = "" then
                .error "Email generation failed. Please try again."
              else .ok (job, links, email)

/-- Lines 44 + 52–53: the stripped username, defaulted to "User" when
blank. -/
def normUsername (username : String) : String :=
  if pyStrip username = "" then "User" else pyStrip username

/-- Lines 45 + 55–56: the stripped tone, defaulted to "formal" unless in
the fixed set. -/
def normTone (tone : String) : String :=
  if pyStrip tone = "formal" || pyStrip tone = "casual" ||
      pyStrip tone = "professional" || pyStrip tone = "friendly" then
    pyStrip tone
  else "formal"

/-- The `generate` action (main.py lines 42–125): input validation, then
the `try` block; on success the cache is overwritten, on an exception an
error message is rendered and the cache is untouched. -/
def generate (cache : Cache) (url username tone : String)
    (fetched : Except String String) (_portfolioLoaded : Bool)
    (portfolioReady : Bool) (hasCollection : Bool)
    (queryRes : Except String (List (String × JVal)))
    (llmExtract : Except String String) (llmMail : Except String String) :
    Cache × RenderResult :=
  if pyStrip url = "" then (cache, .err "Please provide a valid job URL.")
  else
    match generateAttempt (normUsername username) (normTone tone) fetched
        portfolioReady hasCollection queryRes llmExtract llmMail with
    | .error e => (cache, .err ("Error processing job posting: " ++ e))
    | .ok (job, links, email) =>
      ({ last_job := some job, last_links := some links,
         last_username := some (normUsername username),
         last_tone := some (normTone tone),
         last_url := some (pyStrip url) },
       .success email)

/-! ## Derived predicates used to state the claims -/

/-- The response parses to an empty validated job list: complete JSON parse
failure, a parsed list with no surviving dict elements, or a parsed scalar.
(A parsed single dict yields one validated job, so it is excluded.) -/
def parseYieldsNoJobs (response : String) : Bool :=
  match jsonLoads (selectPayload (pyStrip response)) with
  | none => true
  | some (JVal.arr items) => (items.filterMap validateItem).isEmpty
  | some (JVal.obj _) => false
  | some _ => true

/-- The `skills` value of a job dict will not make `', '.join` raise:
either it is not a truthy list, or all its elements are strings. -/
def skillsJoinOkV : Option JVal → Bool
  | some (JVal.arr l) => l.isEmpty || l.all (fun v => v.isStr)
  | _ => true

def skillsJoinOk (job : JVal) : Bool :=
  skillsJoinOkV (jGetV job "skills")

/-- A link value whose processing in `write_mail` cannot raise: if it is a
dict with a truthy `description`, that description is a string. -/
def linkOk (l : JVal) : Bool :=
  match l with
  | JVal.obj fs =>
    match jGet fs "description" with
    | some d => !truthy d || d.isStr
    | none => true
  | _ => true

/-! ## Helper lemmas -/

theorem extractCore_of_noJobs (t r : String) (hp : parseYieldsNoJobs r = true) :
    extractCore t r = [create_fallback_job t] := by
  unfold parseYieldsNoJobs at hp
  unfold extractCore
  cases h : jsonLoads (selectPayload (pyStrip r)) with
  | none => simp only [validateParsed]
  | some v =>
    rw [h] at hp
    cases v with
    | arr items =>
      simp only at hp
      simp only [validateParsed, hp, if_true]
    | obj fs => simp at hp
    | null => simp only [validateParsed]
    | bool b => simp only [validateParsed]
    | num n => simp only [validateParsed]
    | float raw => simp only [validateParsed]
    | str s => simp only [validateParsed]

theorem descStep_isOk (d : Option JVal) (acc : Except String (List String))
    (hd : (match d with | some v => !truthy v || v.isStr | none => true) = true)
    (hacc : ∃ ds, acc = Except.ok ds) :
    ∃ ds, descStep d acc = Except.ok ds := by
  obtain ⟨ds, rfl⟩ := hacc
  cases d with
  | none => exact ⟨ds, rfl⟩
  | some v =>
    simp only at hd
    cases v with
    | str s =>
      simp only [descStep]
      by_cases ht : truthy (JVal.str s) = true
      · rw [if_pos ht]
        by_cases hs : pyStrip s ≠ ""
        · exact ⟨pyStrip s :: ds, by rw [if_pos hs]; rfl⟩
        · exact ⟨ds, by rw [if_neg hs]⟩
      · exact ⟨ds, by rw [if_neg ht]⟩
    | null => exact ⟨ds, by simp only [descStep, truthy, Bool.false_eq_true, if_false]⟩
    | bool b =>
      simp only [JVal.isStr, Bool.or_false, Bool.not_eq_true'] at hd
      exact ⟨ds, by simp only [descStep, hd, Bool.false_eq_true, if_false]⟩
    | num n =>
      simp only [JVal.isStr, Bool.or_false, Bool.not_eq_true'] at hd
      exact ⟨ds, by simp only [descStep, hd, Bool.false_eq_true, if_false]⟩
    | float raw =>
      simp only [JVal.isStr, Bool.or_false, Bool.not_eq_true'] at hd
      exact ⟨ds, by simp only [descStep, hd, Bool.false_eq_true, if_false]⟩
    | arr xs =>
      simp only [JVal.isStr, Bool.or_false, Bool.not_eq_true'] at hd
      exact ⟨ds, by simp only [descStep, hd, Bool.false_eq_true, if_false]⟩
    | obj gs =>
      simp only [JVal.isStr, Bool.or_false, Bool.not_eq_true'] at hd
      exact ⟨ds, by simp only [descStep, hd, Bool.false_eq_true, if_false]⟩

theorem collectDescs_isOk (links : List JVal) (hl : links.all linkOk = true) :
    ∃ ds, collectDescs links = Except.ok ds := by
  induction links with
  | nil => exact ⟨[], rfl⟩
  | cons l rest ih =>
    rw [List.all_cons, Bool.and_eq_true] at hl
    obtain ⟨hl1, hl2⟩ := hl
    cases l with
    | obj fs =>
      simp only [collectDescs]
      simp only [linkOk] at hl1
      exact descStep_isOk _ _ hl1 (ih hl2)
    | null => exact ih hl2
    | bool b => exact ih hl2
    | num n => exact ih hl2
    | float raw => exact ih hl2
    | str s => exact ih hl2
    | arr xs => exact ih hl2

theorem joinStrs_isOk (l : List JVal) (h : l.all (fun v => v.isStr) = true) :
    ∃ ss, joinStrs l = Except.ok ss := by
  induction l with
  | nil => exact ⟨[], rfl⟩
  | cons v rest ih =>
    rw [List.all_cons, Bool.and_eq_true] at h
    obtain ⟨h1, h2⟩ := h
    obtain ⟨ss, hss⟩ := ih h2
    cases v with
    | str s => exact ⟨s :: ss, by simp only [joinStrs]; rw [hss]; rfl⟩
    | null => cases h1
    | bool b => cases h1
    | num n => cases h1
    | float raw => cases h1
    | arr xs => cases h1
    | obj fs => cases h1

theorem skillsPart_isOk (sv : Option JVal) (hs : skillsJoinOkV sv = true) :
    ∃ sp, skillsPart sv = Except.ok sp := by
  cases sv with
  | none => exact ⟨[], rfl⟩
  | some v =>
    cases v with
    | arr l =>
      simp only [skillsJoinOkV] at hs
      simp only [skillsPart]
      by_cases hne : l.isEmpty = true
      · have ht : truthy (JVal.arr l) = false := by
          simp only [truthy, hne, Bool.not_true]
        rw [ht]
        exact ⟨[], by simp only [Bool.false_eq_true, if_false]⟩
      · rw [Bool.eq_false_iff.mpr hne, Bool.false_or] at hs
        obtain ⟨ss, hss⟩ := joinStrs_isOk l hs
        have ht : truthy (JVal.arr l) = true := by
          simp only [truthy, Bool.eq_false_iff.mpr hne, Bool.not_false]
        rw [ht, if_pos rfl, hss]
        exact ⟨_, rfl⟩
    | null => exact ⟨[], rfl⟩
    | bool b => exact ⟨[], rfl⟩
    | num n => exact ⟨[], rfl⟩
    | float raw => exact ⟨[], rfl⟩
    | str s => exact ⟨[], rfl⟩
    | obj gs => exact ⟨[], rfl⟩

theorem jobDescParts_isOk (fs : List (String × JVal))
    (hs : skillsJoinOk (JVal.obj fs) = true) :
    ∃ parts, jobDescParts fs = Except.ok parts := by
  unfold skillsJoinOk at hs
  obtain ⟨sp, hsp⟩ := skillsPart_isOk (jGet fs "skills") (by exact hs)
  exact ⟨_, by unfold jobDescParts; rw [hsp]; rfl⟩

theorem get_all_projects_eq_map (data : List (String × String)) :
    get_all_projects data =
      data.map (fun r => { techstack := r.1, description := r.2 }) := by
  unfold get_all_projects
  by_cases h : data.isEmpty = true
  · rw [if_pos h, List.isEmpty_iff.mp h]
    rfl
  · rw [if_neg h]

/-! ## The claims -/

/-- C1: `extract_jobs` raises (`ValueError`) exactly when the cleaned input
text is empty or whitespace-only; for every non-blank input and every model
response text it returns a job list — the catch-all `except` means no
parsing exception ever propagates. -/
theorem C1_extract_jobs_raises_iff_blank (t r : String) :
    (pyStrip t = "" →
      extract_jobs t r =
        Except.error "Empty or invalid text provided for job extraction.")
    ∧ (pyStrip t ≠ "" → ∃ jobs, extract_jobs t r = Except.ok jobs) := by
  constructor
  · intro h
    unfold extract_jobs
    rw [if_pos h]
  · intro h
    exact ⟨extractCore t r, by unfold extract_jobs; rw [if_neg h]⟩

theorem C1_extract_jobs_raises_iff_blank_witness :
    extract_jobs " " "[]" =
      Except.error "Empty or invalid text provided for job extraction."
    ∧ ∃ jobs, extract_jobs "We are hiring" "not json at all" = Except.ok jobs :=
  ⟨(C1_extract_jobs_raises_iff_blank " " "[]").1 (by decide),
   (C1_extract_jobs_raises_iff_blank "We are hiring" "not json at all").2 (by decide)⟩

/-- C2: for every non-blank cleaned input, whenever the model response
parses to an empty validated job list (a response of exactly `[]`, a list
with no dict elements, a scalar, or a complete parse failure),
`extract_jobs` returns exactly the single fallback job: role "Position
Available", experience "Not specified", skills ["General skills required"],
description the first 500 characters of the cleaned input plus "..." when
the input is longer than 500 characters, else the whole input. -/
theorem C2_fallback_job (t r : String) (ht : pyStrip t ≠ "")
    (hp : parseYieldsNoJobs r = true) :
    extract_jobs t r = Except.ok [create_fallback_job t]
    ∧ (create_fallback_job t).role = "Position Available"
    ∧ (create_fallback_job t).experience = "Not specified"
    ∧ (create_fallback_job t).skills = [JVal.str "General skills required"]
    ∧ (create_fallback_job t).description =
        (if t.length > 500 then t.take 500 ++ "..." else t) := by
  refine ⟨?_, rfl, rfl, rfl, rfl⟩
  unfold extract_jobs
  rw [if_neg ht, extractCore_of_noJobs t r hp]

theorem C2_fallback_job_witness :
    pyStrip "hello careers" ≠ ""
    ∧ parseYieldsNoJobs "[]" = true
    ∧ extract_jobs "hello careers" "[]" =
        Except.ok [create_fallback_job "hello careers"] :=
  ⟨by decide, by decide,
   (C2_fallback_job "hello careers" "[]" (by decide) (by decide)).1⟩

/-- C3 counterexample: on the response
`{"role":"Engineer","skills":["Go"]}` the array search of line 62 matches
the inner `["Go"]`, whose sole element is not a dict, so `extract_jobs`
returns the fallback job — not a job with role "Engineer" as the claim
states. -/
theorem C3_object_response_counterexample :
    extract_jobs "Careers page text"
        "\x7b\"role\":\"Engineer\",\"skills\":[\"Go\"]\x7d"
      = Except.ok [create_fallback_job "Careers page text"]
    ∧ (create_fallback_job "Careers page text").role = "Position Available"
    ∧ "Position Available" ≠ "Engineer" :=
  ⟨rfl, rfl, by decide⟩

/-- C3 amended: on `{"role":"Engineer","skills":["Go"]}` the inner skills
array preempts the object wrapping and the single fallback job is returned;
the object-wrapping path applies only to a response containing no `[...]`
span, e.g. `{"role":"Engineer"}`, which yields one job with role
"Engineer", experience and description defaulted. -/
theorem C3_object_response_amended :
    extract_jobs "Careers page text"
        "\x7b\"role\":\"Engineer\",\"skills\":[\"Go\"]\x7d"
      = Except.ok [create_fallback_job "Careers page text"]
    ∧ extract_jobs "Careers page text" "\x7b\"role\":\"Engineer\"\x7d"
      = Except.ok [{ role := "Engineer", experience := "Not specified",
                     skills := [], description := "No description available" }] :=
  ⟨rfl, rfl⟩

/-- C4 (code bug): the validation of `extract_jobs` keeps a list-valued
`skills` as-is, with no per-element string check, so the response
`[{"skills":[1]}]` yields a job whose skills list holds the non-string
`1` — contradicting the docstring (`'skills': List[str]`), the spec
invariant, and the `', '.join` in `write_mail` that later crashes on it. -/
theorem C4_nonstring_skills_eval :
    extract_jobs "Open position text" "[\x7b\"skills\":[1]\x7d]" =
      Except.ok [{ role := "Unknown Role", experience := "Not specified",
                   skills := [JVal.num 1],
                   description := "No description available" }]
    ∧ (JVal.num 1).isStr = false :=
  ⟨rfl, rfl⟩

/-- C5 (code bug): `clean_text` removes HTML tags (line 18) BEFORE the
script/style-block removal (lines 27–28), so the `<script>`/`<style>` tags
are already gone when the block regexes run and the block CONTENT survives
to the output, contradicting the claim that script/style content is
stripped.  The claim's example input, by contrast, behaves as stated. -/
theorem C5_script_content_eval :
    clean_text "<script>alert(hi)</script>" = "alert(hi)"
    ∧ clean_text "<p>Hi</p> visit http://x.com mail me@x.com" = "Hi visit mail" :=
  ⟨rfl, rfl⟩

set_option maxRecDepth 8000 in
/-- C6 counterexample: the claim says `write_mail` raises exactly when the
job is absent or not a mapping, and otherwise never raises.  But (1) the
empty dict IS a mapping and still raises (`not job` is true for `{}`), and
a mapping-shaped job can also make it raise: (2) a truthy skills list with
a non-string element crashes `', '.join` (line 166), (3) a link whose
truthy `description` is not a string crashes `desc.strip()` (line 153),
and (4) a username carrying an unbalanced brace makes the eager template
parse of `PromptTemplate.from_template` (line 172, outside the `try`)
raise ValueError. -/
theorem C6_write_mail_counterexample :
    (JVal.obj []).isObj = true
    ∧ write_mail (JVal.obj []) [] "User" "formal" (Except.ok "Hello") =
        Except.error "Invalid job data provided"
    ∧ write_mail
        (JVal.obj [("role", JVal.str "Engineer"), ("skills", JVal.arr [JVal.num 1])])
        [] "User" "formal" (Except.ok "Hello") =
        Except.error "TypeError: sequence item is not a str instance"
    ∧ write_mail (JVal.obj [("role", JVal.str "Engineer")])
        [JVal.obj [("description", JVal.num 5)]] "User" "formal"
        (Except.ok "Hello") =
        Except.error "AttributeError: strip is not an attribute of the description value"
    ∧ write_mail (JVal.obj [("role", JVal.str "Engineer")]) [] "Bob\x7d" "formal"
        (Except.ok "Hello") =
        Except.error "ValueError: prompt template failed f-string parsing" :=
  ⟨rfl, rfl, rfl, rfl, rfl⟩

/-- C6 amended: `write_mail` raises exactly when the job is absent, falsy
(in particular the empty mapping) or not a mapping, or when its `skills`
value is a truthy list with a non-string element, or when some link's
truthy `description` is not a string, or when the eagerly parsed prompt
template is malformed (an unbalanced brace in the interpolated username).
For every job that is a truthy mapping passing those checks (with
join-safe links and a username/tone whose interpolated template parses),
it never raises: it returns the trimmed generated text, the literal
fallback for empty model content, or an error string embedding the
exception message. -/
theorem C6_write_mail_amended (job : JVal) (links : List JVal)
    (username tone : String) (llm : Except String String)
    (hj : truthy job = true) (ho : job.isObj = true)
    (hs : skillsJoinOk job = true) (hl : links.all linkOk = true)
    (hb : fstringParseOk (prompt_email_template (write_mail_username username)
      (write_mail_tone tone)) = true) :
    write_mail job links username tone llm =
      Except.ok (match llm with
        | .ok content =>
          if content ≠ "" then pyStrip content
          else "Email generation failed. Please try again."
        | .error e => "Error generating email: " ++ e) := by
  obtain ⟨ds, hds⟩ := collectDescs_isOk links hl
  obtain ⟨parts, hparts⟩ := jobDescParts_isOk job.objFields (by
    cases job with
    | obj fs => exact hs
    | null => cases ho
    | bool b => cases ho
    | num n => cases ho
    | float raw => cases ho
    | str s => cases ho
    | arr xs => cases ho)
  unfold write_mail
  rw [hj, ho]
  simp only [Bool.not_true, Bool.or_self, Bool.false_eq_true, if_false]
  by_cases hle : links.isEmpty = true
  · rw [if_pos hle, hparts, hb]
    simp only [Bool.not_true, Bool.false_eq_true, if_false]
    cases llm with
    | error e => rfl
    | ok content => exact (apply_ite Except.ok _ _ _).symm
  · rw [if_neg hle, hds]
    simp only [Except.map]
    rw [hparts, hb]
    simp only [Bool.not_true, Bool.false_eq_true, if_false]
    cases llm with
    | error e => rfl
    | ok content => exact (apply_ite Except.ok _ _ _).symm

set_option maxRecDepth 8000 in
theorem C6_write_mail_amended_witness :
    truthy (JVal.obj [("role", JVal.str "Engineer")]) = true
    ∧ (JVal.obj [("role", JVal.str "Engineer")]).isObj = true
    ∧ skillsJoinOk (JVal.obj [("role", JVal.str "Engineer")]) = true
    ∧ ([JVal.obj [("description", JVal.str "proj")]] : List JVal).all linkOk = true
    ∧ fstringParseOk (prompt_email_template (write_mail_username "Alice")
        (write_mail_tone "casual")) = true
    ∧ write_mail (JVal.obj [("role", JVal.str "Engineer")])
        [JVal.obj [("description", JVal.str "proj")]] "Alice" "casual"
        (Except.ok "Hello there") = Except.ok "Hello there" :=
  ⟨rfl, rfl, rfl, rfl, rfl, by
    have h := C6_write_mail_amended (JVal.obj [("role", JVal.str "Engineer")])
      [JVal.obj [("description", JVal.str "proj")]] "Alice" "casual"
      (Except.ok "Hello there") rfl rfl rfl rfl rfl
    rw [h]
    rfl⟩

theorem stripSkills_blank (skills : List String)
    (hb : skills.all (fun s => pyStrip s = "") = true) :
    stripSkills (skills.map JVal.str) = Except.ok [] := by
  induction skills with
  | nil => rfl
  | cons s rest ih =>
    rw [List.all_cons, Bool.and_eq_true, decide_eq_true_eq] at hb
    obtain ⟨h1, h2⟩ := hb
    simp only [List.map_cons, stripSkills]
    by_cases ht : truthy (JVal.str s) = true
    · rw [if_pos ht]
      rw [if_neg (by simp [h1])]
      exact ih h2
    · rw [if_neg (by simp at ht ⊢; exact ht)]
      exact ih h2

theorem query_links_fst_cases (skills : List JVal) (hasCollection : Bool)
    (queryRes : Except String (List (String × JVal))) :
    (query_links skills hasCollection queryRes).1 = [] ∨
    ∃ ms : List JVal,
      (query_links skills hasCollection queryRes).1 = ms.filter metaValid := by
  unfold query_links
  repeat' split
  all_goals first
    | exact Or.inl rfl
    | exact Or.inr ⟨_, rfl⟩

/-- C7: `query_links` fails soft: with an all-blank (after trimming) skill
list — in particular the empty list — or an uninitialized collection it
returns the empty list without invoking the index (second component
`false`); when the underlying query errors it returns the empty list; and
every returned metadata entry is a dict with a truthy `description`. -/
theorem C7_query_links_soft (skills : List String) (hasCollection : Bool)
    (queryRes : Except String (List (String × JVal))) :
    (skills.all (fun s => pyStrip s = "") = true →
      query_links (skills.map JVal.str) hasCollection queryRes = ([], false))
    ∧ (hasCollection = false →
      query_links (skills.map JVal.str) hasCollection queryRes = ([], false))
    ∧ (∀ e, queryRes = Except.error e →
      (query_links (skills.map JVal.str) hasCollection queryRes).1 = [])
    ∧ (∀ m, m ∈ (query_links (skills.map JVal.str) hasCollection queryRes).1 →
      metaValid m = true) := by
  refine ⟨?_, ?_, ?_, ?_⟩
  · intro hb
    unfold query_links
    by_cases he : (skills.map JVal.str).isEmpty = true
    · rw [if_pos he]
    · rw [if_neg he]
      by_cases hc : hasCollection = true
      · rw [hc]
        simp only [Bool.not_true, Bool.false_eq_true, if_false]
        rw [stripSkills_blank skills hb]
        rfl
      · rw [Bool.not_eq_true] at hc
        rw [hc]
        rfl
  · intro hc
    subst hc
    unfold query_links
    by_cases he : (skills.map JVal.str).isEmpty = true
    · rw [if_pos he]
    · rw [if_neg he]
      rfl
  · intro e hqe
    subst hqe
    unfold query_links
    by_cases he : (skills.map JVal.str).isEmpty = true
    · rw [if_pos he]
    · rw [if_neg he]
      by_cases hc : hasCollection = true
      · rw [hc]
        simp only [Bool.not_true, Bool.false_eq_true, if_false]
        cases hss : stripSkills (skills.map JVal.str) with
        | error msg => rfl
        | ok valid_skills =>
          show (if valid_skills.isEmpty = true then
              (([], false) : List JVal × Bool)
            else ([], true)).1 = []
          by_cases hv : valid_skills.isEmpty = true
          · rw [if_pos hv]
          · rw [if_neg hv]
      · rw [Bool.not_eq_true] at hc
        rw [hc]
        rfl
  · intro m hm
    rcases query_links_fst_cases (skills.map JVal.str) hasCollection queryRes with
      h | ⟨ms, h⟩
    · rw [h] at hm
      cases hm
    · rw [h] at hm
      exact (List.mem_filter.mp hm).2

theorem C7_query_links_soft_witness :
    query_links [JVal.str "  "] true (Except.ok []) = ([], false)
    ∧ query_links [JVal.str "Go"] false (Except.ok []) = ([], false)
    ∧ (query_links [JVal.str "Go"] true (Except.error "query failed")).1 = [] :=
  ⟨(C7_query_links_soft ["  "] true (Except.ok [])).1 (by decide),
   (C7_query_links_soft ["Go"] false (Except.ok [])).2.1 rfl,
   (C7_query_links_soft ["Go"] true (Except.error "query failed")).2.2.1
     "query failed" rfl⟩

/-- C8: `add_project` returns false and leaves the dataset unchanged when
either argument is blank (the empty string — the code's `not techstack or
not description`); with both arguments non-blank it returns true exactly
when the CSV write succeeds, whatever the vector-index insertion does. -/
theorem C8_add_project_csv (data : List (String × String)) (ts d : String)
    (csvOk hasCollection vecOk : Bool) :
    ((ts = "" ∨ d = "") →
      add_project data ts d csvOk hasCollection vecOk = (false, data))
    ∧ (ts ≠ "" → d ≠ "" →
      (add_project data ts d csvOk hasCollection vecOk).1 = csvOk) := by
  constructor
  · rintro (h | h) <;> simp [add_project, h]
  · intro h1 h2
    cases csvOk <;> simp [add_project, h1, h2]

theorem C8_add_project_csv_witness :
    add_project [("Python", "ml app")] "" "desc" true true true =
      (false, [("Python", "ml app")])
    ∧ (add_project [("Python", "ml app")] "Go" "desc" true true true).1 = true
    ∧ (add_project [("Python", "ml app")] "Go" "desc" false true true).1 = false :=
  ⟨(C8_add_project_csv [("Python", "ml app")] "" "desc" true true true).1
     (Or.inl rfl),
   (C8_add_project_csv [("Python", "ml app")] "Go" "desc" true true true).2
     (by decide) (by decide),
   (C8_add_project_csv [("Python", "ml app")] "Go" "desc" false true true).2
     (by decide) (by decide)⟩

/-- C9: in the `generate` action the single-slot cache is overwritten only
after the email is successfully composed: when any step raises (fetch,
clean/size check, extraction model call, composition — the query never
raises), an error is rendered and every cache field is unchanged; on
success every field is freshly set. -/
theorem C9_generate_cache_frame (cache : Cache) (url username tone : String)
    (fetched : Except String String) (pl pr hc : Bool)
    (queryRes : Except String (List (String × JVal)))
    (llmExtract llmMail : Except String String) :
    (∀ e,
      (generate cache url username tone fetched pl pr hc queryRes llmExtract
          llmMail).2 = RenderResult.err e →
      (generate cache url username tone fetched pl pr hc queryRes llmExtract
          llmMail).1 = cache)
    ∧ (∀ em,
      (generate cache url username tone fetched pl pr hc queryRes llmExtract
          llmMail).2 = RenderResult.success em →
      (generate cache url username tone fetched pl pr hc queryRes llmExtract
          llmMail).1 =
        { last_job := (generate cache url username tone fetched pl pr hc
            queryRes llmExtract llmMail).1.last_job,
          last_links := (generate cache url username tone fetched pl pr hc
            queryRes llmExtract llmMail).1.last_links,
          last_username := some (normUsername username),
          last_tone := some (normTone tone),
          last_url := some (pyStrip url) }
      ∧ (generate cache url username tone fetched pl pr hc queryRes llmExtract
          llmMail).1.last_job.isSome = true
      ∧ (generate cache url username tone fetched pl pr hc queryRes llmExtract
          llmMail).1.last_links.isSome = true) := by
  unfold generate
  by_cases hu : pyStrip url = ""
  · rw [if_pos hu]
    constructor
    · intro e _
      rfl
    · intro em hem
      cases hem
  · rw [if_neg hu]
    cases hA : generateAttempt (normUsername username) (normTone tone) fetched
        pr hc queryRes llmExtract llmMail with
    | error e' =>
      constructor
      · intro e _
        rfl
      · intro em hem
        cases hem
    | ok triple =>
      obtain ⟨job, links, email⟩ := triple
      constructor
      · intro e he
        cases he
      · intro em _
        exact ⟨rfl, rfl, rfl⟩

theorem C9_generate_cache_frame_witness :
    (generate ⟨none, none, none, none, none⟩ "" "alice" "formal"
        (Except.ok "page") true false false (Except.ok []) (Except.ok "[]")
        (Except.ok "mail")).1 = ⟨none, none, none, none, none⟩ :=
  (C9_generate_cache_frame ⟨none, none, none, none, none⟩ "" "alice" "formal"
      (Except.ok "page") true false false (Except.ok []) (Except.ok "[]")
      (Except.ok "mail")).1 "Please provide a valid job URL." rfl

/-- C10: `add_project` is not atomic on CSV failure: with non-blank
arguments the row is appended to the in-memory dataframe before the CSV
write, so a failing write returns false while the row stays in the dataset
and `get_all_projects` reports it. -/
theorem C10_add_project_nonatomic (data : List (String × String))
    (ts d : String) (hasCollection vecOk : Bool)
    (hts : ts ≠ "") (hd : d ≠ "") :
    add_project data ts d false hasCollection vecOk =
      (false, data ++ [(ts, d)])
    ∧ get_all_projects (data ++ [(ts, d)]) =
      get_all_projects data ++ [{ techstack := ts, description := d }] := by
  constructor
  · simp [add_project, hts, hd]
  · rw [get_all_projects_eq_map, get_all_projects_eq_map, List.map_append]
    rfl

theorem C10_add_project_nonatomic_witness :
    add_project [("Python", "ml app")] "Go" "cli tool" false true true =
      (false, [("Python", "ml app"), ("Go", "cli tool")])
    ∧ get_all_projects [("Python", "ml app"), ("Go", "cli tool")] =
      get_all_projects [("Python", "ml app")] ++
        [{ techstack := "Go", description := "cli tool" }] :=
  C10_add_project_nonatomic [("Python", "ml app")] "Go" "cli tool" true true
    (by decide) (by decide)

end ColdGen
